import Mathlib

/-!
Verification of `mcupdate` (src/main.rs): a single-loop Minecraft snapshot
update checker.  The program is embedded shallowly: HTTP transport results,
the local marker file, the RFC3339 parser of the `chrono` crate and the wall
clock are oracle inputs collected in an `Env` structure; one check cycle
(`check_minecraft_update`) is translated line by line from the source into a
function producing the ordered trace of observable events, the way the cycle
ended (panic / early return / completion) and the marker-file contents after
the cycle.
-/

/-- JSON values as produced by `serde_json`, restricted to what the program
touches (numbers in the payloads are integers). -/
inductive Json where
  | null
  | bool (b : Bool)
  | num (n : Int)
  | str (s : String)
  | arr (elems : List Json)
  | obj (fields : List (String × Json))

/-- Indexing an object by key, `value["key"]` of `serde_json`: the value of
the first field with that key, `null` when the key is missing or the value
is not an object. -/
def Json.getKey : Json → String → Json
  | .obj fields, k =>
    match fields.find? (fun f => f.1 = k) with
    | some f => f.2
    | none => .null
  | _, _ => .null

/-- Indexing an array by position, `value[0]` of `serde_json`: `null` when
out of range or the value is not an array. -/
def Json.getIdx : Json → Nat → Json
  | .arr elems, i => elems.getD i .null
  | _, _ => .null

/-- The `as_str` accessor of `serde_json`: `some` exactly on strings. -/
def Json.asStr : Json → Option String
  | .str s => some s
  | _ => none

/-- HTTP oracle for GET requests issued through `fetch_json`.
`send url = none` models a transport error of `client.get(url).send()`;
`send url = some none` models a body that cannot be read as text
(`response.text()` fails); `send url = some (some t)` yields the body text.
`parse t` models `serde_json::from_str(t).ok()`. -/
structure HttpEnv where
  send : String → Option (Option String)
  parse : String → Option Json

/-- Oracle environment of one check cycle: the configuration read at startup,
the transport results of every outbound call, the marker file and the clock. -/
structure Env where
  healthchecksUrl : Option String
  discordWebhookUrl : String
  /-- result of `client.get(healthchecks_url).send()`: `false` is a transport
  error (the `.unwrap()` then panics). Only consulted when a URL is set. -/
  pingOk : Bool
  http : HttpEnv
  /-- `true` models `fs::exists(CACHE_FILE)` returning `Err`. -/
  fsExistsErr : Bool
  /-- contents of the marker file `prev_mc_snapshot.txt`; `none` = absent. -/
  marker : Option String
  /-- `chrono::DateTime::parse_from_rfc3339(s).ok()` followed by `.timestamp()`. -/
  rfc3339 : String → Option Int
  /-- current Unix time in seconds (`SystemTime::now()`). -/
  nowSecs : Int
  /-- transport result of the POST to ntfy.sh: `some code` is a response with
  that status code, `none` a transport error (the `.unwrap()` panics). -/
  ntfyResp : Option Nat
  /-- transport result of the POST to the Discord webhook, same convention. -/
  discordResp : Option Nat
  /-- whether `fs::write(CACHE_FILE, ...)` succeeds. -/
  writeOk : Bool

def MANIFEST_URL : String :=
  "https://piston-meta.mojang.com/mc/game/version_manifest_v2.json"

def MINECRAFT_ICON_URL : String :=
  "https://resources.download.minecraft.net/df/df274fe57c49ef1af6d218703d805db76a5c8af9"

def CACHE_FILE : String := "prev_mc_snapshot.txt"

def NTFY_HOST : String := "https://ntfy.sh/"

def NTFY_TOPIC : String := "mcupdate"

def NTFY_ICON : String := MINECRAFT_ICON_URL

def DC_WEBHOOK_NAME : String := "Minecraft Update"

def DC_WEBHOOK_ICON : String := MINECRAFT_ICON_URL

/-- Translation of `fn fetch_json(client, url) -> Option<Value>`. -/
def fetch_json (http : HttpEnv) (url : String) : Option Json :=
  match http.send url with
  | some (some text) => http.parse text
  | some none => none
  | none => none

/-- Observable events of one cycle, in program order. -/
inductive Ev where
  | getPing (url : String)
  | getManifest (url : String)
  | getDetail (url : String)
  | postNtfy (body : Json) (iconHeader : String)
  | postDiscord (url : String) (body : Json)
  | writeMarker (contents : String)
  | logLine (msg : String)

/-- `true` on the two outbound notification POSTs. -/
def Ev.isNotifyPost : Ev → Bool
  | .postNtfy _ _ => true
  | .postDiscord _ _ => true
  | _ => false

/-- `true` on the version-detail GET. -/
def Ev.isDetailFetch : Ev → Bool
  | .getDetail _ => true
  | _ => false

/-- `true` on a marker-file write. -/
def Ev.isMarkerWrite : Ev → Bool
  | .writeMarker _ => true
  | _ => false

/-- How a cycle ended: `panicked` is an `unwrap`/`expect` failure terminating
the process, `returnedEarly` one of the two `return` statements, `finished`
the fall-through end of the function. -/
inductive CycleEnd where
  | panicked
  | returnedEarly
  | finished
deriving DecidableEq

/-- Result of one cycle: the ordered event trace up to the point the cycle
ended, how it ended, and the marker-file contents afterwards. -/
structure CycleOutcome where
  events : List Ev
  result : CycleEnd
  markerAfter : Option String

/-- The elapsed-hours computation: `(current_time_secs - release_time_secs)
/ 60 / 60` with Rust `i64` division (truncation toward zero, `Int.div`). -/
def release_diff_hours_of (currentTimeSecs releaseTimeSecs : Int) : Int :=
  Int.tdiv (Int.tdiv (currentTimeSecs - releaseTimeSecs) 60) 60

/-- The elapsed-time string: `format!("{} hour{} ago", h, if h == 1 then ""
else "s")`. -/
def release_diff_string_of (h : Int) : String :=
  toString h ++ " hour" ++ (if h = 1 then "" else "s") ++ " ago"

/-- JSON body of the POST to ntfy.sh, translated from the `json!` literal. -/
def ntfy_payload (version_type latest_snapshot release_diff_string
    latest_data_url : String) : Json :=
  .obj [
    ("topic", .str NTFY_TOPIC),
    ("message", .str (version_type ++ " " ++ latest_snapshot ++ " " ++
      release_diff_string)),
    ("title", .str ("New Minecraft " ++ version_type)),
    ("tags", .arr [.str "minecraft", .str "update", .str "snapshot"]),
    ("priority", .num 4),
    ("click", .str latest_data_url)
  ]

/-- JSON body of the POST to the Discord webhook, translated from the `json!`
literal. -/
def discord_payload (version_type latest_snapshot release_time_str : String) :
    Json :=
  .obj [
    ("embeds", .arr [
      .obj [
        ("title", .str ("New Minecraft " ++ version_type ++ ": " ++
          latest_snapshot)),
        ("timestamp", .str release_time_str),
        ("color", .num 16776960),
        ("footer", .obj [
          ("text", .str DC_WEBHOOK_NAME),
          ("icon_url", .str DC_WEBHOOK_ICON)
        ])
      ]
    ])
  ]

/-- Phase of `check_minecraft_update` from `let latest_data_url = ...` to the
end of the function: detail fetch, field extraction, elapsed-time formatting,
the two notification POSTs and the marker write.  `events` is the trace
accumulated so far. -/
def notifyPhase (env : Env) (events : List Ev) (manifest : Json)
    (latest_snapshot : String) : CycleOutcome :=
  match ((((manifest.getKey "versions").getIdx 0).getKey "url")).asStr with
  | none => ⟨events, .panicked, env.marker⟩
  | some latest_data_url =>
    let events := events ++ [Ev.getDetail latest_data_url]
    match fetch_json env.http latest_data_url with
    | none => ⟨events, .panicked, env.marker⟩
    | some latest_data_json =>
      match (latest_data_json.getKey "releaseTime").asStr with
      | none => ⟨events, .panicked, env.marker⟩
      | some release_time_str =>
        match (latest_data_json.getKey "type").asStr with
        | none => ⟨events, .panicked, env.marker⟩
        | some version_type =>
          let events := events ++ [Ev.logLine ("Encountered new Minecraft " ++
            version_type ++ " " ++ latest_snapshot ++ " (released at " ++
            release_time_str ++ ")")]
          match env.rfc3339 release_time_str with
          | none => ⟨events, .panicked, env.marker⟩
          | some release_time_secs =>
            let h := release_diff_hours_of env.nowSecs release_time_secs
            let release_diff_string := release_diff_string_of h
            let events := events ++ [Ev.postNtfy
              (ntfy_payload version_type latest_snapshot release_diff_string
                latest_data_url) NTFY_ICON]
            match env.ntfyResp with
            | none => ⟨events, .panicked, env.marker⟩
            | some code =>
              let events := events ++
                [Ev.logLine ("Posted to ntfy.sh, received code " ++
                  toString code)]
              let events := events ++ [Ev.postDiscord env.discordWebhookUrl
                (discord_payload version_type latest_snapshot
                  release_time_str)]
              match env.discordResp with
              | none => ⟨events, .panicked, env.marker⟩
              | some dcode =>
                let events := events ++
                  [Ev.logLine ("Posted to Discord Webhook, received code " ++
                    toString dcode)]
                let events := events ++ [Ev.writeMarker latest_snapshot]
                if env.writeOk then
                  ⟨events, .finished, some latest_snapshot⟩
                else
                  ⟨events, .panicked, env.marker⟩

/-- Phase of `check_minecraft_update` from `let latest_snapshot = ...` to the
marker comparison: extraction of `latest.snapshot`, the `fs::exists` check
(`unwrap_or(false)` maps an error to `false`), the marker read and the
byte-for-byte comparison with early return. -/
def comparePhase (env : Env) (events : List Ev) (manifest : Json) :
    CycleOutcome :=
  match ((manifest.getKey "latest").getKey "snapshot").asStr with
  | none => ⟨events, .panicked, env.marker⟩
  | some latest_snapshot =>
    if (if env.fsExistsErr then false else env.marker.isSome) then
      match env.marker with
      | some prev_snapshot =>
        if latest_snapshot = prev_snapshot then
          ⟨events ++ [Ev.logLine
            ("Previous snapshot is still latest snapshot: " ++
              prev_snapshot)], .returnedEarly, env.marker⟩
        else
          notifyPhase env events manifest latest_snapshot
      | none => ⟨events, .panicked, env.marker⟩
    else
      notifyPhase env events manifest latest_snapshot

/-- Trace of the optional liveness ping at the top of the cycle. -/
def pingEvents (env : Env) : List Ev :=
  match env.healthchecksUrl with
  | some url => [Ev.getPing url]
  | none => []

/-- Translation of `fn check_minecraft_update`: liveness ping, manifest fetch
with cycle-local error handling, then the compare and notify phases. -/
def check_minecraft_update (env : Env) : CycleOutcome :=
  if env.healthchecksUrl.isSome && !env.pingOk then
    ⟨pingEvents env, .panicked, env.marker⟩
  else
    let events := pingEvents env ++ [Ev.getManifest MANIFEST_URL]
    match fetch_json env.http MANIFEST_URL with
    | none =>
      ⟨events ++ [Ev.logLine
        "Received invalid response while requesting manifest url"],
        .returnedEarly, env.marker⟩
    | some manifest_json => comparePhase env events manifest_json

/-- The outer loop of `main`, with fuel: `oracle i` supplies the oracles of
cycle `i` (its `marker` field is ignored), `marker` is the marker file
threaded between cycles.  A panic terminates the process; otherwise the loop
sleeps and runs the next cycle. -/
def runCycles (oracle : Nat → Env) (marker : Option String) :
    Nat → List CycleOutcome
  | 0 => []
  | n + 1 =>
    let o := check_minecraft_update { oracle 0 with marker := marker }
    if o.result = .panicked then [o]
    else o :: runCycles (fun i => oracle (i + 1)) o.markerAfter n

/-! Concrete example inputs used to evaluate the cycle. -/

/-- Example manifest document: latest snapshot `25w41a`, one versions entry. -/
def egManifest : Json :=
  .obj [
    ("latest", .obj [("release", .str "1.21.9"), ("snapshot", .str "25w41a")]),
    ("versions", .arr [
      .obj [("id", .str "25w41a"),
            ("url", .str "https://piston-meta.mojang.com/v1/packages/abc/25w41a.json")]
    ])
  ]

/-- Example version-detail document for `25w41a`. -/
def egDetail : Json :=
  .obj [
    ("releaseTime", .str "2025-10-07T12:00:00+00:00"),
    ("type", .str "snapshot")
  ]

/-- Example detail URL, the `versions[0].url` of `egManifest`. -/
def egDetailUrl : String :=
  "https://piston-meta.mojang.com/v1/packages/abc/25w41a.json"

/-- Example HTTP oracle: the manifest URL and the detail URL answer with
bodies that parse to `egManifest` and `egDetail`; everything else fails. -/
def egHttp : HttpEnv where
  send := fun url =>
    if url = MANIFEST_URL then some (some "manifest-body")
    else if url = egDetailUrl then some (some "detail-body")
    else none
  parse := fun text =>
    if text = "manifest-body" then some egManifest
    else if text = "detail-body" then some egDetail
    else none

/-- Example RFC3339 oracle: knows the one timestamp appearing in `egDetail`
(2025-10-07T12:00:00Z = 1759838400). -/
def egRfc3339 : String → Option Int := fun s =>
  if s = "2025-10-07T12:00:00+00:00" then some 1759838400 else none

/-- Example environment for a change-detected cycle: no marker file yet, all
transports succeed, "now" is one hour after the release. -/
def egEnv : Env where
  healthchecksUrl := none
  discordWebhookUrl := "https://discord.example/webhook"
  pingOk := true
  http := egHttp
  fsExistsErr := false
  marker := none
  rfc3339 := egRfc3339
  nowSecs := 1759842000
  ntfyResp := some 200
  discordResp := some 204
  writeOk := true

/-- Variant of `egEnv` whose marker already holds the latest snapshot. -/
def egEnvSame : Env := { egEnv with marker := some "25w41a" }

/-- Variant of `egEnv` where the Discord webhook POST fails at the transport
level. -/
def egEnvDiscordFail : Env := { egEnv with discordResp := none }

/-- Variant of `egEnv` where every HTTP request fails, so the manifest fetch
yields nothing. -/
def egEnvManifestFail : Env :=
  { egEnv with http := { send := fun _ => none, parse := fun _ => none } }

/-- Variant of `egEnv` where the manifest fetch succeeds but the
version-detail request fails at the transport level. -/
def egEnvDetailFail : Env :=
  { egEnv with http :=
    { send := fun url =>
        if url = MANIFEST_URL then some (some "manifest-body") else none,
      parse := egHttp.parse } }

/-- Variant of `egEnv` where `fs::exists` errors while the marker file in
fact holds the latest snapshot. -/
def egEnvExistsErr : Env :=
  { egEnv with fsExistsErr := true, marker := some "25w41a" }

/-- Variant of `egEnv` where both notification POSTs return error statuses
(404 and 500) at the HTTP level, though the transports succeed. -/
def egEnvBadStatus : Env :=
  { egEnv with ntfyResp := some 404, discordResp := some 500 }

/-! Helper lemmas computing the phases of a cycle under explicit oracle
hypotheses. -/

/-- When the ping cannot panic the cycle proceeds to the manifest fetch;
with a parsed manifest it continues into the compare phase. -/
theorem check_minecraft_update_manifest_some (env : Env) (manifest : Json)
    (hping : env.healthchecksUrl = none ∨ env.pingOk = true)
    (hm : fetch_json env.http MANIFEST_URL = some manifest) :
    check_minecraft_update env =
      comparePhase env (pingEvents env ++ [Ev.getManifest MANIFEST_URL])
        manifest := by
  have hcond : (env.healthchecksUrl.isSome && !env.pingOk) = false := by
    rcases hping with h | h <;> simp [h]
  unfold check_minecraft_update
  simp [hcond, hm]

/-- With a failed manifest fetch the cycle logs and returns early. -/
theorem check_minecraft_update_manifest_none (env : Env)
    (hping : env.healthchecksUrl = none ∨ env.pingOk = true)
    (hm : fetch_json env.http MANIFEST_URL = none) :
    check_minecraft_update env =
      ⟨pingEvents env ++ [Ev.getManifest MANIFEST_URL, Ev.logLine
        "Received invalid response while requesting manifest url"],
        .returnedEarly, env.marker⟩ := by
  have hcond : (env.healthchecksUrl.isSome && !env.pingOk) = false := by
    rcases hping with h | h <;> simp [h]
  unfold check_minecraft_update
  simp [hcond, hm]

/-- Compare phase, "still latest" branch: marker present (no exists error)
and equal to the latest snapshot. -/
theorem comparePhase_still_latest (env : Env) (events : List Ev)
    (manifest : Json) (s : String)
    (hs : ((manifest.getKey "latest").getKey "snapshot").asStr = some s)
    (hne : env.fsExistsErr = false)
    (hprev : env.marker = some s) :
    comparePhase env events manifest =
      ⟨events ++ [Ev.logLine
        ("Previous snapshot is still latest snapshot: " ++ s)],
        .returnedEarly, env.marker⟩ := by
  unfold comparePhase
  simp [hs, hne, hprev]

/-- Compare phase, change-detected branch: the exists check yields `false`
(absent marker or exists error) or the marker differs from the latest
snapshot; the cycle proceeds into the notify phase. -/
theorem comparePhase_proceed (env : Env) (events : List Ev)
    (manifest : Json) (s : String)
    (hs : ((manifest.getKey "latest").getKey "snapshot").asStr = some s)
    (hchange : env.fsExistsErr = true ∨ env.marker = none ∨
      ∀ prev, env.marker = some prev → s ≠ prev) :
    comparePhase env events manifest = notifyPhase env events manifest s := by
  unfold comparePhase
  rcases hchange with h | h | h
  · simp [hs, h]
  · simp [hs, h]
  · cases hmk : env.marker with
    | none => simp [hs, hmk]
    | some prev => simp [hs, hmk, h prev hmk]

/-- Notify phase under full success: detail URL present, detail fetched and
parsed, fields present, timestamp parsed, both POST transports answer, write
succeeds.  The full trace suffix and final state are computed. -/
theorem notifyPhase_success (env : Env) (events : List Ev)
    (manifest latest_data_json : Json) (s u rts vt : String) (rsecs : Int)
    (c1 c2 : Nat)
    (hu : (((manifest.getKey "versions").getIdx 0).getKey "url").asStr =
      some u)
    (hd : fetch_json env.http u = some latest_data_json)
    (hrt : (latest_data_json.getKey "releaseTime").asStr = some rts)
    (hvt : (latest_data_json.getKey "type").asStr = some vt)
    (hts : env.rfc3339 rts = some rsecs)
    (hn : env.ntfyResp = some c1)
    (hdc : env.discordResp = some c2)
    (hw : env.writeOk = true) :
    notifyPhase env events manifest s =
      ⟨events ++
        [Ev.getDetail u,
         Ev.logLine ("Encountered new Minecraft " ++ vt ++ " " ++ s ++
           " (released at " ++ rts ++ ")"),
         Ev.postNtfy (ntfy_payload vt s
           (release_diff_string_of (release_diff_hours_of env.nowSecs rsecs))
           u) NTFY_ICON,
         Ev.logLine ("Posted to ntfy.sh, received code " ++ toString c1),
         Ev.postDiscord env.discordWebhookUrl (discord_payload vt s rts),
         Ev.logLine ("Posted to Discord Webhook, received code " ++
           toString c2),
         Ev.writeMarker s],
        .finished, some s⟩ := by
  unfold notifyPhase
  simp [hu, hd, hrt, hvt, hts, hn, hdc, hw]

/-- Notify phase when the Discord webhook POST fails at the transport level
after a successful ntfy.sh POST: panic before any marker write. -/
theorem notifyPhase_discord_transport_failure (env : Env) (events : List Ev)
    (manifest latest_data_json : Json) (s u rts vt : String) (rsecs : Int)
    (c1 : Nat)
    (hu : (((manifest.getKey "versions").getIdx 0).getKey "url").asStr =
      some u)
    (hd : fetch_json env.http u = some latest_data_json)
    (hrt : (latest_data_json.getKey "releaseTime").asStr = some rts)
    (hvt : (latest_data_json.getKey "type").asStr = some vt)
    (hts : env.rfc3339 rts = some rsecs)
    (hn : env.ntfyResp = some c1)
    (hdc : env.discordResp = none) :
    notifyPhase env events manifest s =
      ⟨events ++
        [Ev.getDetail u,
         Ev.logLine ("Encountered new Minecraft " ++ vt ++ " " ++ s ++
           " (released at " ++ rts ++ ")"),
         Ev.postNtfy (ntfy_payload vt s
           (release_diff_string_of (release_diff_hours_of env.nowSecs rsecs))
           u) NTFY_ICON,
         Ev.logLine ("Posted to ntfy.sh, received code " ++ toString c1),
         Ev.postDiscord env.discordWebhookUrl (discord_payload vt s rts)],
        .panicked, env.marker⟩ := by
  unfold notifyPhase
  simp [hu, hd, hrt, hvt, hts, hn, hdc]

/-- Notify phase when the version-detail fetch fails (transport or parse):
panic right after the detail GET. -/
theorem notifyPhase_detail_failure (env : Env) (events : List Ev)
    (manifest : Json) (s u : String)
    (hu : (((manifest.getKey "versions").getIdx 0).getKey "url").asStr =
      some u)
    (hd : fetch_json env.http u = none) :
    notifyPhase env events manifest s =
      ⟨events ++ [Ev.getDetail u], .panicked, env.marker⟩ := by
  unfold notifyPhase
  simp [hu, hd]

/-- The ping trace contains no notification POST, no detail fetch and no
marker write. -/
theorem pingEvents_benign (env : Env) :
    ∀ e ∈ pingEvents env,
      e.isNotifyPost = false ∧ e.isDetailFetch = false ∧
      e.isMarkerWrite = false := by
  intro e he
  unfold pingEvents at he
  rcases hh : env.healthchecksUrl with _ | url
  · rw [hh] at he
    simp at he
  · rw [hh] at he
    simp at he
    subst he
    exact ⟨rfl, rfl, rfl⟩

/-- The ntfy.sh POST event is in the notify-phase trace as soon as the
detail document was fetched and its fields extracted, whatever happens to
the POST transports and the marker write afterwards. -/
theorem notifyPhase_posts_ntfy (env : Env) (events : List Ev)
    (manifest latest_data_json : Json) (s u rts vt : String) (rsecs : Int)
    (hu : (((manifest.getKey "versions").getIdx 0).getKey "url").asStr =
      some u)
    (hd : fetch_json env.http u = some latest_data_json)
    (hrt : (latest_data_json.getKey "releaseTime").asStr = some rts)
    (hvt : (latest_data_json.getKey "type").asStr = some vt)
    (hts : env.rfc3339 rts = some rsecs) :
    Ev.postNtfy (ntfy_payload vt s
        (release_diff_string_of (release_diff_hours_of env.nowSecs rsecs)) u)
      NTFY_ICON ∈ (notifyPhase env events manifest s).events := by
  unfold notifyPhase
  simp only [hu, hd, hrt, hvt, hts]
  cases hn : env.ntfyResp with
  | none => simp
  | some c1 =>
    cases hdc : env.discordResp with
    | none => simp
    | some c2 => cases hw : env.writeOk <;> simp

/-! Claim theorems. -/

/-- C4 (counterexample): a release exactly 0 hours before "now" does NOT
format as "0 hour ago"; the else-branch of the pluralization supplies the
"s", giving "0 hours ago".  Evaluated at now = release = 1759842000. -/
theorem c4_zero_hours_counterexample :
    release_diff_string_of (release_diff_hours_of 1759842000 1759842000) =
      "0 hours ago" ∧
    release_diff_string_of (release_diff_hours_of 1759842000 1759842000) ≠
      "0 hour ago" := by
  constructor
  · rfl
  · intro h
    rw [show release_diff_string_of
        (release_diff_hours_of 1759842000 1759842000) = "0 hours ago"
      from rfl] at h
    simp at h

/-- C4 (amended): the elapsed string is "<N> hour(s) ago" with the plural
suffix omitted exactly when N = 1; a release exactly 1 hour before now
formats as "1 hour ago", exactly 2 hours before as "2 hours ago", and
exactly 0 hours before as "0 hours ago" (plural, since 0 ≠ 1). -/
theorem c4_pluralization (now : Int) :
    release_diff_string_of (release_diff_hours_of now (now - 3600)) =
      "1 hour ago" ∧
    release_diff_string_of (release_diff_hours_of now (now - 7200)) =
      "2 hours ago" ∧
    release_diff_string_of (release_diff_hours_of now now) = "0 hours ago" ∧
    (∀ h : Int, h = 1 →
      release_diff_string_of h = toString h ++ " hour" ++ "" ++ " ago") ∧
    (∀ h : Int, h ≠ 1 →
      release_diff_string_of h = toString h ++ " hour" ++ "s" ++ " ago") := by
  have e1 : release_diff_hours_of now (now - 3600) = 1 := by
    unfold release_diff_hours_of
    rw [show now - (now - 3600) = 3600 by ring]
    decide
  have e2 : release_diff_hours_of now (now - 7200) = 2 := by
    unfold release_diff_hours_of
    rw [show now - (now - 7200) = 7200 by ring]
    decide
  have e0 : release_diff_hours_of now now = 0 := by
    unfold release_diff_hours_of
    rw [show now - now = 0 by ring]
    decide
  refine ⟨by rw [e1]; rfl, by rw [e2]; rfl, by rw [e0]; rfl, ?_, ?_⟩
  · intro h h1
    subst h1
    rfl
  · intro h h1
    unfold release_diff_string_of
    rw [if_neg h1]

/-- C4 (witness for the amended theorem): the three formats evaluated at
now = 1759842000, and the two pluralization branches at 0 and 1. -/
theorem c4_pluralization_witness :
    release_diff_string_of (release_diff_hours_of 1759842000
      (1759842000 - 3600)) = "1 hour ago" ∧
    release_diff_string_of (release_diff_hours_of 1759842000
      (1759842000 - 7200)) = "2 hours ago" ∧
    release_diff_string_of (release_diff_hours_of 1759842000 1759842000) =
      "0 hours ago" ∧
    release_diff_string_of 0 = toString (0 : Int) ++ " hour" ++ "s" ++ " ago" ∧
    release_diff_string_of 1 = toString (1 : Int) ++ " hour" ++ "" ++ " ago" :=
  ⟨(c4_pluralization 1759842000).1,
   (c4_pluralization 1759842000).2.1,
   (c4_pluralization 1759842000).2.2.1,
   (c4_pluralization 1759842000).2.2.2.2 0 (by decide),
   (c4_pluralization 1759842000).2.2.2.1 1 rfl⟩

/-- C9: `fetch_json` is a total function (it always returns, never panics);
it yields `none` exactly when the request fails, the body cannot be read as
text, or the body is not valid JSON, and otherwise `some` of the parsed
value. -/
theorem fetch_json_characterization (http : HttpEnv) (url : String) :
    (fetch_json http url = none ↔
      http.send url = none ∨ http.send url = some none ∨
      ∃ t, http.send url = some (some t) ∧ http.parse t = none) ∧
    (∀ j : Json, fetch_json http url = some j ↔
      ∃ t, http.send url = some (some t) ∧ http.parse t = some j) := by
  constructor
  · unfold fetch_json
    rcases hs : http.send url with _ | o
    · simp
    · rcases o with _ | t
      · simp
      · simp
  · intro j
    unfold fetch_json
    rcases hs : http.send url with _ | o
    · simp
    · rcases o with _ | t
      · simp
      · simp

/-- C1: in a cycle where the manifest fetch succeeds, its latest.snapshot
differs from every persisted marker value (or no marker exists), and all
subsequent steps succeed, the trace ends with the ntfy.sh POST, the Discord
webhook POST and, only after both, the marker write; the marker file ends up
holding the new snapshot id. -/
theorem change_cycle_notifies_both_then_writes_marker
    (env : Env) (manifest latest_data_json : Json)
    (s u rts vt : String) (rsecs : Int) (c1 c2 : Nat)
    (hping : env.healthchecksUrl = none ∨ env.pingOk = true)
    (hm : fetch_json env.http MANIFEST_URL = some manifest)
    (hs : ((manifest.getKey "latest").getKey "snapshot").asStr = some s)
    (hdiff : ∀ prev, env.marker = some prev → s ≠ prev)
    (hu : (((manifest.getKey "versions").getIdx 0).getKey "url").asStr =
      some u)
    (hd : fetch_json env.http u = some latest_data_json)
    (hrt : (latest_data_json.getKey "releaseTime").asStr = some rts)
    (hvt : (latest_data_json.getKey "type").asStr = some vt)
    (hts : env.rfc3339 rts = some rsecs)
    (hn : env.ntfyResp = some c1)
    (hdc : env.discordResp = some c2)
    (hw : env.writeOk = true) :
    ∃ (pre : List Ev) (m1 m2 : String),
      (check_minecraft_update env).events =
        pre ++
          [Ev.postNtfy (ntfy_payload vt s
             (release_diff_string_of
               (release_diff_hours_of env.nowSecs rsecs)) u) NTFY_ICON,
           Ev.logLine m1,
           Ev.postDiscord env.discordWebhookUrl (discord_payload vt s rts),
           Ev.logLine m2,
           Ev.writeMarker s] ∧
      (check_minecraft_update env).result = .finished ∧
      (check_minecraft_update env).markerAfter = some s := by
  rw [check_minecraft_update_manifest_some env manifest hping hm,
    comparePhase_proceed env _ manifest s hs (Or.inr (Or.inr hdiff)),
    notifyPhase_success env _ manifest latest_data_json s u rts vt rsecs c1 c2
      hu hd hrt hvt hts hn hdc hw]
  refine ⟨pingEvents env ++ [Ev.getManifest MANIFEST_URL] ++
    [Ev.getDetail u,
     Ev.logLine ("Encountered new Minecraft " ++ vt ++ " " ++ s ++
       " (released at " ++ rts ++ ")")],
    "Posted to ntfy.sh, received code " ++ toString c1,
    "Posted to Discord Webhook, received code " ++ toString c2, ?_, rfl, rfl⟩
  simp

/-- C1 (witness): the conclusion evaluated on `egEnv`, a concrete
change-detected cycle with no marker file and all transports succeeding. -/
theorem change_cycle_witness :
    ∃ (pre : List Ev) (m1 m2 : String),
      (check_minecraft_update egEnv).events =
        pre ++
          [Ev.postNtfy (ntfy_payload "snapshot" "25w41a"
             (release_diff_string_of
               (release_diff_hours_of egEnv.nowSecs 1759838400)) egDetailUrl)
             NTFY_ICON,
           Ev.logLine m1,
           Ev.postDiscord egEnv.discordWebhookUrl
             (discord_payload "snapshot" "25w41a"
               "2025-10-07T12:00:00+00:00"),
           Ev.logLine m2,
           Ev.writeMarker "25w41a"] ∧
      (check_minecraft_update egEnv).result = .finished ∧
      (check_minecraft_update egEnv).markerAfter = some "25w41a" :=
  change_cycle_notifies_both_then_writes_marker egEnv egManifest egDetail
    "25w41a" egDetailUrl "2025-10-07T12:00:00+00:00" "snapshot" 1759838400
    200 204 (Or.inl rfl) rfl rfl
    (by intro prev h; simp [egEnv] at h)
    rfl rfl rfl rfl rfl rfl rfl rfl

/-- C2: in a cycle where the marker file exists (no exists error) and its
contents equal the manifest's latest.snapshot, the cycle returns early with
no notification POST, no version-detail fetch and no marker write, and the
marker file is unchanged. -/
theorem still_latest_cycle_no_effects (env : Env) (manifest : Json)
    (s : String)
    (hping : env.healthchecksUrl = none ∨ env.pingOk = true)
    (hm : fetch_json env.http MANIFEST_URL = some manifest)
    (hs : ((manifest.getKey "latest").getKey "snapshot").asStr = some s)
    (hne : env.fsExistsErr = false)
    (hprev : env.marker = some s) :
    (check_minecraft_update env).result = .returnedEarly ∧
    (check_minecraft_update env).markerAfter = env.marker ∧
    ∀ e ∈ (check_minecraft_update env).events,
      e.isNotifyPost = false ∧ e.isDetailFetch = false ∧
      e.isMarkerWrite = false := by
  rw [check_minecraft_update_manifest_some env manifest hping hm,
    comparePhase_still_latest env _ manifest s hs hne hprev]
  refine ⟨rfl, rfl, ?_⟩
  intro e he
  simp only [List.append_assoc, List.mem_append] at he
  rcases he with hp | he
  · exact pingEvents_benign env e hp
  · simp at he
    rcases he with h | h <;> subst h <;> exact ⟨rfl, rfl, rfl⟩

/-- C2 (witness): the conclusion evaluated on `egEnvSame`, where the marker
already holds "25w41a", the latest snapshot of the manifest. -/
theorem still_latest_witness :
    (check_minecraft_update egEnvSame).result = .returnedEarly ∧
    (check_minecraft_update egEnvSame).markerAfter = egEnvSame.marker ∧
    ∀ e ∈ (check_minecraft_update egEnvSame).events,
      e.isNotifyPost = false ∧ e.isDetailFetch = false ∧
      e.isMarkerWrite = false :=
  still_latest_cycle_no_effects egEnvSame egManifest "25w41a"
    (Or.inl rfl) rfl rfl rfl rfl

/-- C3: a cycle whose manifest fetch yields nothing (request failed, body
unreadable, or invalid JSON) logs and returns early: no notification POST,
no marker write, the marker keeps its value, the cycle does not panic, and
the outer loop goes on to run the remaining cycles. -/
theorem manifest_failure_cycle_local (oracle : Nat → Env)
    (marker : Option String) (n : Nat)
    (hping : (oracle 0).healthchecksUrl = none ∨ (oracle 0).pingOk = true)
    (hm : fetch_json (oracle 0).http MANIFEST_URL = none) :
    check_minecraft_update { oracle 0 with marker := marker } =
      ⟨pingEvents { oracle 0 with marker := marker } ++
        [Ev.getManifest MANIFEST_URL,
         Ev.logLine "Received invalid response while requesting manifest url"],
        .returnedEarly, marker⟩ ∧
    (∀ e ∈ (check_minecraft_update { oracle 0 with marker := marker }).events,
      e.isNotifyPost = false ∧ e.isMarkerWrite = false) ∧
    runCycles oracle marker (n + 1) =
      check_minecraft_update { oracle 0 with marker := marker } ::
        runCycles (fun i => oracle (i + 1)) marker n := by
  have h1 := check_minecraft_update_manifest_none
    { oracle 0 with marker := marker } hping hm
  refine ⟨h1, ?_, ?_⟩
  · rw [h1]
    intro e he
    simp only [List.mem_append] at he
    rcases he with hp | he
    · have := pingEvents_benign { oracle 0 with marker := marker } e hp
      exact ⟨this.1, this.2.2⟩
    · simp at he
      rcases he with h | h <;> subst h <;> exact ⟨rfl, rfl⟩
  · rw [runCycles, h1]
    simp

/-- C3 (witness): the conclusion evaluated on a loop whose every cycle uses
`egEnvManifestFail` (all HTTP requests fail), starting with no marker, for
one further cycle after the failing one. -/
theorem manifest_failure_witness :
    check_minecraft_update { egEnvManifestFail with marker := none } =
      ⟨pingEvents { egEnvManifestFail with marker := none } ++
        [Ev.getManifest MANIFEST_URL,
         Ev.logLine "Received invalid response while requesting manifest url"],
        .returnedEarly, none⟩ ∧
    (∀ e ∈ (check_minecraft_update
        { egEnvManifestFail with marker := none }).events,
      e.isNotifyPost = false ∧ e.isMarkerWrite = false) ∧
    runCycles (fun _ => egEnvManifestFail) none (1 + 1) =
      check_minecraft_update { egEnvManifestFail with marker := none } ::
        runCycles (fun _ => egEnvManifestFail) none 1 :=
  manifest_failure_cycle_local (fun _ => egEnvManifestFail) none 1
    (Or.inl rfl) rfl

/-- C5 (round-trip): after a change-detected cycle that completed (marker
written with the latest snapshot id), a second cycle run with the same
manifest response and the marker left by the first cycle returns early on
the "still latest" path and performs no notification POST. -/
theorem roundtrip_second_cycle_unchanged
    (env env' : Env) (manifest latest_data_json : Json)
    (s u rts vt : String) (rsecs : Int) (c1 c2 : Nat)
    (hping : env.healthchecksUrl = none ∨ env.pingOk = true)
    (hm : fetch_json env.http MANIFEST_URL = some manifest)
    (hs : ((manifest.getKey "latest").getKey "snapshot").asStr = some s)
    (hdiff : ∀ prev, env.marker = some prev → s ≠ prev)
    (hu : (((manifest.getKey "versions").getIdx 0).getKey "url").asStr =
      some u)
    (hd : fetch_json env.http u = some latest_data_json)
    (hrt : (latest_data_json.getKey "releaseTime").asStr = some rts)
    (hvt : (latest_data_json.getKey "type").asStr = some vt)
    (hts : env.rfc3339 rts = some rsecs)
    (hn : env.ntfyResp = some c1)
    (hdc : env.discordResp = some c2)
    (hw : env.writeOk = true)
    (hping' : env'.healthchecksUrl = none ∨ env'.pingOk = true)
    (hm' : fetch_json env'.http MANIFEST_URL = some manifest)
    (hne' : env'.fsExistsErr = false)
    (hmark' : env'.marker = (check_minecraft_update env).markerAfter) :
    (check_minecraft_update env').result = .returnedEarly ∧
    ∀ e ∈ (check_minecraft_update env').events, e.isNotifyPost = false := by
  have hma : (check_minecraft_update env).markerAfter = some s := by
    rw [check_minecraft_update_manifest_some env manifest hping hm,
      comparePhase_proceed env _ manifest s hs (Or.inr (Or.inr hdiff)),
      notifyPhase_success env _ manifest latest_data_json s u rts vt rsecs
        c1 c2 hu hd hrt hvt hts hn hdc hw]
  rw [hma] at hmark'
  rw [check_minecraft_update_manifest_some env' manifest hping' hm',
    comparePhase_still_latest env' _ manifest s hs hne' hmark']
  refine ⟨rfl, ?_⟩
  intro e he
  simp only [List.append_assoc, List.mem_append] at he
  rcases he with hp | he
  · exact (pingEvents_benign env' e hp).1
  · simp at he
    rcases he with h | h <;> subst h <;> rfl

/-- C5 (witness): first cycle on `egEnv`, second on the same oracles with
the marker produced by the first cycle. -/
theorem roundtrip_witness :
    (check_minecraft_update
      { egEnv with marker := (check_minecraft_update egEnv).markerAfter
      }).result = .returnedEarly ∧
    ∀ e ∈ (check_minecraft_update
      { egEnv with marker := (check_minecraft_update egEnv).markerAfter
      }).events, e.isNotifyPost = false :=
  roundtrip_second_cycle_unchanged egEnv
    { egEnv with marker := (check_minecraft_update egEnv).markerAfter }
    egManifest egDetail "25w41a" egDetailUrl "2025-10-07T12:00:00+00:00"
    "snapshot" 1759838400 200 204 (Or.inl rfl) rfl rfl
    (by intro prev h; simp [egEnv] at h)
    rfl rfl rfl rfl rfl rfl rfl rfl (Or.inl rfl) rfl rfl rfl

/-- C6: in a change-detected cycle where the ntfy.sh POST succeeds but the
Discord webhook POST fails at the transport level, the process panics before
any marker write: the trace holds the ntfy.sh POST and no marker write, the
marker keeps its previous contents, and any later cycle run with the same
manifest and that marker proceeds past the comparison and re-sends the
ntfy.sh push notification. -/
theorem partial_failure_marker_not_persisted
    (env : Env) (manifest latest_data_json : Json)
    (s u rts vt : String) (rsecs : Int) (c1 : Nat)
    (hping : env.healthchecksUrl = none ∨ env.pingOk = true)
    (hm : fetch_json env.http MANIFEST_URL = some manifest)
    (hs : ((manifest.getKey "latest").getKey "snapshot").asStr = some s)
    (hdiff : ∀ prev, env.marker = some prev → s ≠ prev)
    (hu : (((manifest.getKey "versions").getIdx 0).getKey "url").asStr =
      some u)
    (hd : fetch_json env.http u = some latest_data_json)
    (hrt : (latest_data_json.getKey "releaseTime").asStr = some rts)
    (hvt : (latest_data_json.getKey "type").asStr = some vt)
    (hts : env.rfc3339 rts = some rsecs)
    (hn : env.ntfyResp = some c1)
    (hdc : env.discordResp = none) :
    (check_minecraft_update env).result = .panicked ∧
    (check_minecraft_update env).markerAfter = env.marker ∧
    (∃ b, Ev.postNtfy b NTFY_ICON ∈ (check_minecraft_update env).events) ∧
    (∀ e ∈ (check_minecraft_update env).events, e.isMarkerWrite = false) ∧
    (∀ (env' : Env) (rsecs' : Int),
      env'.healthchecksUrl = none ∨ env'.pingOk = true →
      fetch_json env'.http MANIFEST_URL = some manifest →
      env'.marker = (check_minecraft_update env).markerAfter →
      fetch_json env'.http u = some latest_data_json →
      env'.rfc3339 rts = some rsecs' →
      ∃ b, Ev.postNtfy b NTFY_ICON ∈ (check_minecraft_update env').events) := by
  have hO : check_minecraft_update env =
      ⟨pingEvents env ++ [Ev.getManifest MANIFEST_URL] ++
        [Ev.getDetail u,
         Ev.logLine ("Encountered new Minecraft " ++ vt ++ " " ++ s ++
           " (released at " ++ rts ++ ")"),
         Ev.postNtfy (ntfy_payload vt s
           (release_diff_string_of
             (release_diff_hours_of env.nowSecs rsecs)) u) NTFY_ICON,
         Ev.logLine ("Posted to ntfy.sh, received code " ++ toString c1),
         Ev.postDiscord env.discordWebhookUrl (discord_payload vt s rts)],
        .panicked, env.marker⟩ := by
    rw [check_minecraft_update_manifest_some env manifest hping hm,
      comparePhase_proceed env _ manifest s hs (Or.inr (Or.inr hdiff)),
      notifyPhase_discord_transport_failure env _ manifest latest_data_json
        s u rts vt rsecs c1 hu hd hrt hvt hts hn hdc]
  rw [hO]
  refine ⟨rfl, rfl,
    ⟨ntfy_payload vt s
      (release_diff_string_of (release_diff_hours_of env.nowSecs rsecs)) u,
      by simp⟩, ?_, ?_⟩
  · intro e he
    simp only [List.append_assoc, List.mem_append] at he
    rcases he with hp | he
    · exact (pingEvents_benign env e hp).2.2
    · simp at he
      rcases he with h | h | h | h | h | h <;> subst h <;> rfl
  · intro env' rsecs' hping' hm' hmark' hd' hts'
    have hdiff' : ∀ prev, env'.marker = some prev → s ≠ prev := by
      intro prev hp
      rw [hmark'] at hp
      exact hdiff prev hp
    rw [check_minecraft_update_manifest_some env' manifest hping' hm',
      comparePhase_proceed env' _ manifest s hs (Or.inr (Or.inr hdiff'))]
    exact ⟨_, notifyPhase_posts_ntfy env' _ manifest latest_data_json
      s u rts vt rsecs' hu hd' hrt hvt hts'⟩

/-- C6 (witness): evaluated on `egEnvDiscordFail` and a second run of the
same oracles with the marker the failed cycle leaves behind. -/
theorem partial_failure_witness :
    (check_minecraft_update egEnvDiscordFail).result = .panicked ∧
    (check_minecraft_update egEnvDiscordFail).markerAfter =
      egEnvDiscordFail.marker ∧
    (∃ b, Ev.postNtfy b NTFY_ICON ∈
      (check_minecraft_update egEnvDiscordFail).events) ∧
    (∀ e ∈ (check_minecraft_update egEnvDiscordFail).events,
      e.isMarkerWrite = false) ∧
    (∀ (env' : Env) (rsecs' : Int),
      env'.healthchecksUrl = none ∨ env'.pingOk = true →
      fetch_json env'.http MANIFEST_URL = some egManifest →
      env'.marker = (check_minecraft_update egEnvDiscordFail).markerAfter →
      fetch_json env'.http egDetailUrl = some egDetail →
      env'.rfc3339 "2025-10-07T12:00:00+00:00" = some rsecs' →
      ∃ b, Ev.postNtfy b NTFY_ICON ∈
        (check_minecraft_update env').events) :=
  partial_failure_marker_not_persisted egEnvDiscordFail egManifest egDetail
    "25w41a" egDetailUrl "2025-10-07T12:00:00+00:00" "snapshot" 1759838400
    200 (Or.inl rfl) rfl rfl
    (by intro prev h; simp [egEnvDiscordFail, egEnv] at h)
    rfl rfl rfl rfl rfl rfl rfl

/-- C7: asymmetric fatality of the two fetches: a failed manifest fetch is
cycle-local (early return), while a failed version-detail fetch on the
change path panics the process. -/
theorem fetch_failure_asymmetry :
    (∀ env : Env, env.healthchecksUrl = none ∨ env.pingOk = true →
      fetch_json env.http MANIFEST_URL = none →
      (check_minecraft_update env).result = .returnedEarly) ∧
    (∀ (env : Env) (manifest : Json) (s u : String),
      env.healthchecksUrl = none ∨ env.pingOk = true →
      fetch_json env.http MANIFEST_URL = some manifest →
      ((manifest.getKey "latest").getKey "snapshot").asStr = some s →
      (∀ prev, env.marker = some prev → s ≠ prev) →
      (((manifest.getKey "versions").getIdx 0).getKey "url").asStr = some u →
      fetch_json env.http u = none →
      (check_minecraft_update env).result = .panicked) := by
  constructor
  · intro env hping hm
    rw [check_minecraft_update_manifest_none env hping hm]
  · intro env manifest s u hping hm hs hdiff hu hd
    rw [check_minecraft_update_manifest_some env manifest hping hm,
      comparePhase_proceed env _ manifest s hs (Or.inr (Or.inr hdiff)),
      notifyPhase_detail_failure env _ manifest s u hu hd]

/-- C7 (witness): the manifest-failure cycle on `egEnvManifestFail` returns
early; the detail-failure cycle on `egEnvDetailFail` panics. -/
theorem fetch_failure_asymmetry_witness :
    (check_minecraft_update egEnvManifestFail).result = .returnedEarly ∧
    (check_minecraft_update egEnvDetailFail).result = .panicked :=
  ⟨fetch_failure_asymmetry.1 egEnvManifestFail (Or.inl rfl) rfl,
   fetch_failure_asymmetry.2 egEnvDetailFail egManifest "25w41a" egDetailUrl
     (Or.inl rfl) rfl rfl
     (by intro prev h; simp [egEnvDetailFail, egEnv] at h) rfl rfl⟩

/-- C8: the marker write does not depend on the HTTP status codes of the two
notification POSTs: for ANY status codes c1 and c2 (including non-2xx such
as 404 or 500), as long as both transports return a response, the marker is
overwritten with the latest snapshot id. -/
theorem marker_write_unconditional_on_status
    (env : Env) (manifest latest_data_json : Json)
    (s u rts vt : String) (rsecs : Int) (c1 c2 : Nat)
    (hping : env.healthchecksUrl = none ∨ env.pingOk = true)
    (hm : fetch_json env.http MANIFEST_URL = some manifest)
    (hs : ((manifest.getKey "latest").getKey "snapshot").asStr = some s)
    (hdiff : ∀ prev, env.marker = some prev → s ≠ prev)
    (hu : (((manifest.getKey "versions").getIdx 0).getKey "url").asStr =
      some u)
    (hd : fetch_json env.http u = some latest_data_json)
    (hrt : (latest_data_json.getKey "releaseTime").asStr = some rts)
    (hvt : (latest_data_json.getKey "type").asStr = some vt)
    (hts : env.rfc3339 rts = some rsecs)
    (hn : env.ntfyResp = some c1)
    (hdc : env.discordResp = some c2)
    (hw : env.writeOk = true) :
    (check_minecraft_update env).markerAfter = some s ∧
    Ev.writeMarker s ∈ (check_minecraft_update env).events := by
  rw [check_minecraft_update_manifest_some env manifest hping hm,
    comparePhase_proceed env _ manifest s hs (Or.inr (Or.inr hdiff)),
    notifyPhase_success env _ manifest latest_data_json s u rts vt rsecs
      c1 c2 hu hd hrt hvt hts hn hdc hw]
  exact ⟨rfl, by simp⟩

/-- C8 (witness): on `egEnvBadStatus`, where ntfy.sh answers 404 and the
Discord webhook answers 500, the marker is still overwritten. -/
theorem marker_write_unconditional_witness :
    (check_minecraft_update egEnvBadStatus).markerAfter = some "25w41a" ∧
    Ev.writeMarker "25w41a" ∈ (check_minecraft_update egEnvBadStatus).events :=
  marker_write_unconditional_on_status egEnvBadStatus egManifest egDetail
    "25w41a" egDetailUrl "2025-10-07T12:00:00+00:00" "snapshot" 1759838400
    404 500 (Or.inl rfl) rfl rfl
    (by intro prev h; simp [egEnvBadStatus, egEnv] at h)
    rfl rfl rfl rfl rfl rfl rfl rfl

/-- C10: when `fs::exists` itself errors, `unwrap_or(false)` makes the cycle
treat the marker as absent: the marker file is never read (the cycle equals
the cycle on the same oracles with no marker file), the comparison is
skipped even if the marker in fact holds the latest snapshot, and the cycle
proceeds down the change-detected path, sending both notifications. -/
theorem exists_error_treated_as_absent
    (env : Env) (manifest latest_data_json : Json)
    (s u rts vt : String) (rsecs : Int) (c1 c2 : Nat)
    (hping : env.healthchecksUrl = none ∨ env.pingOk = true)
    (hm : fetch_json env.http MANIFEST_URL = some manifest)
    (hs : ((manifest.getKey "latest").getKey "snapshot").asStr = some s)
    (he : env.fsExistsErr = true)
    (hu : (((manifest.getKey "versions").getIdx 0).getKey "url").asStr =
      some u)
    (hd : fetch_json env.http u = some latest_data_json)
    (hrt : (latest_data_json.getKey "releaseTime").asStr = some rts)
    (hvt : (latest_data_json.getKey "type").asStr = some vt)
    (hts : env.rfc3339 rts = some rsecs)
    (hn : env.ntfyResp = some c1)
    (hdc : env.discordResp = some c2)
    (hw : env.writeOk = true) :
    check_minecraft_update env =
      check_minecraft_update { env with marker := none } ∧
    (check_minecraft_update env).markerAfter = some s ∧
    (∃ b, Ev.postNtfy b NTFY_ICON ∈ (check_minecraft_update env).events) ∧
    (∃ b, Ev.postDiscord env.discordWebhookUrl b ∈
      (check_minecraft_update env).events) := by
  have hO : check_minecraft_update env =
      ⟨pingEvents env ++ [Ev.getManifest MANIFEST_URL] ++
        [Ev.getDetail u,
         Ev.logLine ("Encountered new Minecraft " ++ vt ++ " " ++ s ++
           " (released at " ++ rts ++ ")"),
         Ev.postNtfy (ntfy_payload vt s
           (release_diff_string_of
             (release_diff_hours_of env.nowSecs rsecs)) u) NTFY_ICON,
         Ev.logLine ("Posted to ntfy.sh, received code " ++ toString c1),
         Ev.postDiscord env.discordWebhookUrl (discord_payload vt s rts),
         Ev.logLine ("Posted to Discord Webhook, received code " ++
           toString c2),
         Ev.writeMarker s],
        .finished, some s⟩ := by
    rw [check_minecraft_update_manifest_some env manifest hping hm,
      comparePhase_proceed env _ manifest s hs (Or.inl he),
      notifyPhase_success env _ manifest latest_data_json s u rts vt rsecs
        c1 c2 hu hd hrt hvt hts hn hdc hw]
  have hO' : check_minecraft_update { env with marker := none } =
      ⟨pingEvents env ++ [Ev.getManifest MANIFEST_URL] ++
        [Ev.getDetail u,
         Ev.logLine ("Encountered new Minecraft " ++ vt ++ " " ++ s ++
           " (released at " ++ rts ++ ")"),
         Ev.postNtfy (ntfy_payload vt s
           (release_diff_string_of
             (release_diff_hours_of env.nowSecs rsecs)) u) NTFY_ICON,
         Ev.logLine ("Posted to ntfy.sh, received code " ++ toString c1),
         Ev.postDiscord env.discordWebhookUrl (discord_payload vt s rts),
         Ev.logLine ("Posted to Discord Webhook, received code " ++
           toString c2),
         Ev.writeMarker s],
        .finished, some s⟩ := by
    rw [check_minecraft_update_manifest_some { env with marker := none }
        manifest hping hm,
      comparePhase_proceed { env with marker := none } _ manifest s hs
        (Or.inr (Or.inl rfl)),
      notifyPhase_success { env with marker := none } _ manifest
        latest_data_json s u rts vt rsecs c1 c2 hu hd hrt hvt hts hn hdc hw]
    rfl
  refine ⟨hO.trans hO'.symm, ?_, ?_, ?_⟩
  · rw [hO]
  · rw [hO]
    exact ⟨ntfy_payload vt s
      (release_diff_string_of (release_diff_hours_of env.nowSecs rsecs)) u,
      by simp⟩
  · rw [hO]
    exact ⟨discord_payload vt s rts, by simp⟩

/-- C10 (witness): evaluated on `egEnvExistsErr`, where the exists check
errors while the marker file holds exactly the latest snapshot "25w41a". -/
theorem exists_error_witness :
    check_minecraft_update egEnvExistsErr =
      check_minecraft_update { egEnvExistsErr with marker := none } ∧
    (check_minecraft_update egEnvExistsErr).markerAfter = some "25w41a" ∧
    (∃ b, Ev.postNtfy b NTFY_ICON ∈
      (check_minecraft_update egEnvExistsErr).events) ∧
    (∃ b, Ev.postDiscord egEnvExistsErr.discordWebhookUrl b ∈
      (check_minecraft_update egEnvExistsErr).events) :=
  exists_error_treated_as_absent egEnvExistsErr egManifest egDetail
    "25w41a" egDetailUrl "2025-10-07T12:00:00+00:00" "snapshot" 1759838400
    200 204 (Or.inl rfl) rfl rfl rfl rfl rfl rfl rfl rfl rfl rfl rfl
